import Mathlib

/-!
Verification development for the surfability API (`src/index.ts`).

The numeric core of the service — the scoring engine `calculateSurfability`,
the NOAA buoy text parser `parseBuoyData`, the tide snapshot builder
`fetchTideData`, and the forecast summarizer `getConditionsDuration` — is
embedded shallowly below.

JavaScript numbers are modelled by `Dec`, exact decimal fixed-point numbers
(an integer mantissa over a power of ten).  Every numeric value these
functions compare or combine is a short decimal literal from a text feed or
a product/sum of such literals, so `Dec` represents them exactly, and none
of the verified properties depends on binary floating-point rounding.  The
interpretation map `Dec.toRat` into `ℚ` together with the congruence lemmas
below (`Dec.le_iff`, `Dec.toRat_add`, …) pin down the arithmetic.  `NaN` is
modelled by `Option Dec` at parse boundaries (JS `parseFloat` returning
`NaN` becomes `none`).

Strings handled character-by-character by the parser are modelled as
`List Char`; output messages stay `String`.  All functions are total: the
source wraps its bodies in `try/catch` and returns `null`/fallback records
instead of throwing, which the embedding reflects by returning
`Option`/plain records directly.
-/

namespace Surf

/-! ## Exact decimal numbers -/

def pow10 (e : Nat) : Int := ((10 ^ e : Nat) : Int)

/-- An exact decimal number `m / 10^e`. -/
structure Dec where
  m : Int
  e : Nat
deriving DecidableEq

@[reducible] def Dec.le (a b : Dec) : Prop := a.m * pow10 b.e ≤ b.m * pow10 a.e

@[reducible] def Dec.lt (a b : Dec) : Prop := a.m * pow10 b.e < b.m * pow10 a.e

instance : LE Dec := ⟨Dec.le⟩

instance : LT Dec := ⟨Dec.lt⟩

instance (a b : Dec) : Decidable (a ≤ b) := Int.decLe _ _

instance (a b : Dec) : Decidable (a < b) := Int.decLt _ _

def Dec.add (a b : Dec) : Dec := ⟨a.m * pow10 b.e + b.m * pow10 a.e, a.e + b.e⟩

def Dec.mul (a b : Dec) : Dec := ⟨a.m * b.m, a.e + b.e⟩

def Dec.neg (a : Dec) : Dec := ⟨-a.m, a.e⟩

def Dec.sub (a b : Dec) : Dec := a.add b.neg

/-- Model of `Math.abs`. -/
def Dec.abs (a : Dec) : Dec := ⟨(a.m.natAbs : Int), a.e⟩

/-- Exact halving (`x / 2` in the source is `x * 5 / 10`). -/
def Dec.half (a : Dec) : Dec := ⟨a.m * 5, a.e + 1⟩

instance : Add Dec := ⟨Dec.add⟩

instance : Mul Dec := ⟨Dec.mul⟩

instance : Neg Dec := ⟨Dec.neg⟩

instance : Sub Dec := ⟨Dec.sub⟩

instance : OfNat Dec n := ⟨⟨(n : Int), 0⟩⟩

instance : OfScientific Dec :=
  ⟨fun m b e => if b then ⟨(m : Int), e⟩ else ⟨(m : Int) * pow10 e, 0⟩⟩

/-- Interpretation of a `Dec` as a rational number. -/
def Dec.toRat (a : Dec) : ℚ := (a.m : ℚ) / (10 : ℚ) ^ a.e

lemma pow10_cast (e : Nat) : ((pow10 e : Int) : ℚ) = (10 : ℚ) ^ e := by
  simp [pow10]

lemma pow10_pos_rat (e : Nat) : (0 : ℚ) < (10 : ℚ) ^ e := by positivity

/-- The order on `Dec` agrees with the order of the represented rationals. -/
lemma Dec.le_iff (a b : Dec) : a ≤ b ↔ a.toRat ≤ b.toRat := by
  show a.m * pow10 b.e ≤ b.m * pow10 a.e ↔ _
  rw [Dec.toRat, Dec.toRat, div_le_div_iff₀ (pow10_pos_rat _) (pow10_pos_rat _)]
  rw [← pow10_cast, ← pow10_cast]
  exact_mod_cast Iff.rfl

lemma Dec.lt_iff (a b : Dec) : a < b ↔ a.toRat < b.toRat := by
  show a.m * pow10 b.e < b.m * pow10 a.e ↔ _
  rw [Dec.toRat, Dec.toRat, div_lt_div_iff₀ (pow10_pos_rat _) (pow10_pos_rat _)]
  rw [← pow10_cast, ← pow10_cast]
  exact_mod_cast Iff.rfl

lemma Dec.toRat_add (a b : Dec) : (a + b).toRat = a.toRat + b.toRat := by
  show ((⟨a.m * pow10 b.e + b.m * pow10 a.e, a.e + b.e⟩ : Dec)).toRat = _
  rw [Dec.toRat, Dec.toRat, Dec.toRat]
  push_cast [pow10]
  rw [div_add_div _ _ (ne_of_gt (pow10_pos_rat a.e)) (ne_of_gt (pow10_pos_rat b.e)), pow_add]
  ring_nf

lemma Dec.toRat_mul (a b : Dec) : (a * b).toRat = a.toRat * b.toRat := by
  show ((⟨a.m * b.m, a.e + b.e⟩ : Dec)).toRat = _
  rw [Dec.toRat, Dec.toRat, Dec.toRat]
  push_cast
  rw [pow_add, div_mul_div_comm]

lemma Dec.toRat_neg (a : Dec) : (-a).toRat = -a.toRat := by
  show ((⟨-a.m, a.e⟩ : Dec)).toRat = _
  rw [Dec.toRat, Dec.toRat]
  push_cast
  ring

lemma Dec.toRat_half (a : Dec) : a.half.toRat = a.toRat / 2 := by
  rw [Dec.half, Dec.toRat, Dec.toRat]
  push_cast
  rw [pow_succ]
  field_simp
  ring

lemma Dec.toRat_abs (a : Dec) : a.abs.toRat = |a.toRat| := by
  rw [Dec.abs, Dec.toRat, Dec.toRat, abs_div, abs_of_pos (pow10_pos_rat a.e)]
  congr 1
  push_cast [Int.cast_natAbs]
  rfl

/-! ## JavaScript string primitives over `List Char` -/

/-- Model of `String.prototype.trim`: drop whitespace from both ends. -/
def jsTrim (s : List Char) : List Char :=
  ((s.dropWhile Char.isWhitespace).reverse.dropWhile Char.isWhitespace).reverse

/-- Model of `text.split('\n')`: split at every newline, keeping empty
segments (JS semantics). -/
def splitOnChar (c : Char) : List Char → List (List Char)
  | [] => [[]]
  | x :: xs =>
    let r := splitOnChar c xs
    if x = c then [] :: r
    else
      match r with
      | h :: t => (x :: h) :: t
      | [] => [[x]]

/-- Split at every whitespace character, keeping empty segments. -/
def splitAtWs : List Char → List (List Char)
  | [] => [[]]
  | x :: xs =>
    let r := splitAtWs xs
    if x.isWhitespace then [] :: r
    else
      match r with
      | h :: t => (x :: h) :: t
      | [] => [[x]]

/-- Model of `line.trim().split(/\s+/)`: split on runs of whitespace.  On
the (already trimmed) data lines the code feeds it, this equals the JS
regex split; dropping empty segments realises the "runs" semantics. -/
def splitWs (s : List Char) : List (List Char) :=
  (splitAtWs s).filter (fun w => !w.isEmpty)

/-- Boolean prefix test used by `containsSeg`. -/
def leadsWith : List Char → List Char → Bool
  | [], _ => true
  | _ :: _, [] => false
  | p :: ps, c :: cs => p == c && leadsWith ps cs

/-- Model of `String.prototype.includes`: `pat` occurs as a contiguous
segment of the second argument. -/
def containsSeg (pat : List Char) : List Char → Bool
  | [] => pat.isEmpty
  | c :: cs => leadsWith pat (c :: cs) || containsSeg pat cs

/-- Model of `line.startsWith('#')`. -/
def startsWithHash : List Char → Bool
  | '#' :: _ => true
  | _ => false

/-! ## JS `parseFloat` (decimal core)

`parseFloat` skips leading whitespace, consumes an optional sign, an
integer part, an optional `.`-separated fraction, and ignores any trailing
garbage; with no digit consumed it returns `NaN` (here `none`).  The value
of `[sign] ip . fp` is `± (ip + fp / 10^|fp|)`, i.e. the exact decimal
`± (ip * 10^|fp| + fp) / 10^|fp|` constructed below.  Exponent suffixes
and `Infinity`, which never occur in the NDBC/tide feeds the code parses,
are not modelled. -/

def digitsVal (ds : List Char) : Nat :=
  ds.foldl (fun a c => 10 * a + (c.toNat - '0'.toNat)) 0

def jsParseFloat (s : List Char) : Option Dec :=
  let s1 := s.dropWhile Char.isWhitespace
  let (neg, s2) :=
    match s1 with
    | '-' :: rest => (true, rest)
    | '+' :: rest => (false, rest)
    | _ => (false, s1)
  let ip := s2.takeWhile Char.isDigit
  let s3 := s2.dropWhile Char.isDigit
  let fp :=
    match s3 with
    | '.' :: rest => rest.takeWhile Char.isDigit
    | _ => ([] : List Char)
  if ip.isEmpty && fp.isEmpty then none
  else
    let v : Dec := ⟨(digitsVal ip : Int) * pow10 fp.length + (digitsVal fp : Int), fp.length⟩
    some (if neg then -v else v)

/-! ## Scoring engine (`calculateSurfability`)

The embedding follows the fuller variant of `calculateSurfability`
(src/index.ts lines 787-859), which carries the optional `tideHeight`
bonus; the earlier variant (lines 164-229) is the special case
`tideHeight = none`.  The accumulated `score` starts at 0 and only ever
has non-negative integer constants added, so it is modelled as `Nat`.

The ambient `Math.random()` draw inside `getRandomRating` is injected as a
capability `rnd : Nat → Nat` mapping a list length `n` to the drawn index
`Math.floor(Math.random() * n)`; for a genuine `Math.random()` result the
index is `< n`, which appears as a hypothesis where a proof needs it. -/

structure SurfData where
  waveHeight : Dec
  wavePeriod : Dec
  swellDirection : Dec
  windDirection : Dec
  windSpeed : Dec
  tide : String
  tideHeight : Option Dec
deriving DecidableEq

structure SurfabilityResult where
  score : Nat
  surfable : Bool
  rating : String
  funRating : String
deriving DecidableEq

def excellentRatings : List String :=
  ["Epic", "Firing", "Going Off", "Pumping", "Primo", "Cranking", "Nuking"]

def goodRatings : List String :=
  ["Fun", "Solid", "Decent", "Surfable", "Worth It", "Not Bad", "Rideable"]

def marginalRatings : List String :=
  ["Marginal", "Questionable", "Sketchy", "Iffy", "Meh", "Barely", "Struggling"]

def poorRatings : List String :=
  ["Flat", "Blown Out", "Junk", "Trash", "Hopeless", "Closed Out",
   "Victory at Sea", "Ankle Biters", "Lake Mode", "Check the Cam",
   "Stay Home", "Netflix Day"]

/-- Model of `getRandomRating`:
`options[Math.floor(Math.random() * options.length)]`; the JS out-of-range
access (unreachable for a real `Math.random()` draw) is modelled by `getD`
with a dummy default. -/
def getRandomRating (rnd : Nat → Nat) (options : List String) : String :=
  options.getD (rnd options.length) ""

/-- Wave height contribution: 2-8 ft → 25; 1.5-<2 ft → 15; else 0. -/
def heightScore (h : Dec) : Nat :=
  if 2 ≤ h ∧ h ≤ 8 then 25
  else if 1.5 ≤ h ∧ h < 2 then 15
  else 0

/-- Wave period contribution: ≥10 s → 25; ≥7 s → 20; ≥5 s → 10; else 0. -/
def periodScore (p : Dec) : Nat :=
  if 10 ≤ p then 25
  else if 7 ≤ p then 20
  else if 5 ≤ p then 10
  else 0

/-- Swell direction contribution: 45-135° → 20; 30-150° → 10; else 0. -/
def directionScore (d : Dec) : Nat :=
  if 45 ≤ d ∧ d ≤ 135 then 20
  else if 30 ≤ d ∧ d ≤ 150 then 10
  else 0

/-- Wind contribution: speed <5 kt → 15; offshore band 225-315° → 20 if
speed ≤15 kt else 10; else speed <10 kt → 10; else 0. -/
def windScore (speed dir : Dec) : Nat :=
  if speed < 5 then 15
  else if 225 ≤ dir ∧ dir ≤ 315 then
    (if speed ≤ 15 then 20 else 10)
  else if speed < 10 then 10
  else 0

/-- Tide state contribution: Mid/Rising/Falling → 10; else 0. -/
def tideScore (tide : String) : Nat :=
  if tide == "Mid" || tide == "Rising" || tide == "Falling" then 10 else 0

/-- Optional tide height bonus: defined and 0.5-2.5 ft → 5; else 0. -/
def tideHeightBonus : Option Dec → Nat
  | some th => if 0.5 ≤ th ∧ th ≤ 2.5 then 5 else 0
  | none => 0

/-- The accumulated `score` of `calculateSurfability`: the source
initialises `score = 0` and adds each contribution in turn. -/
def surfScore (data : SurfData) : Nat :=
  heightScore data.waveHeight + periodScore data.wavePeriod +
    directionScore data.swellDirection +
    windScore data.windSpeed data.windDirection +
    tideScore data.tide + tideHeightBonus data.tideHeight

/-- Model of `calculateSurfability` (src/index.ts lines 787-859). -/
def calculateSurfability (rnd : Nat → Nat) (data : SurfData) : SurfabilityResult :=
  let score := surfScore data
  if 80 ≤ score then
    ⟨score, decide (45 ≤ score), "Excellent", getRandomRating rnd excellentRatings⟩
  else if 65 ≤ score then
    ⟨score, decide (45 ≤ score), "Good", getRandomRating rnd goodRatings⟩
  else if 45 ≤ score then
    ⟨score, decide (45 ≤ score), "Marginal", getRandomRating rnd marginalRatings⟩
  else
    ⟨score, decide (45 ≤ score), "Poor", getRandomRating rnd poorRatings⟩

/-- The spec's canonical 4-tier rating scheme, written from its words:
Poor <45, Marginal 45-64, Good 65-79, Excellent ≥80. -/
def canonicalRating (score : Nat) : String :=
  if score < 45 then "Poor"
  else if score < 65 then "Marginal"
  else if score < 80 then "Good"
  else "Excellent"

/-! ## Buoy feed parser (`parseBuoyData`, src/index.ts lines 231-321)

The source wraps the body in `try/catch` and returns `null` on failure;
the embedding is a total function into `Option BuoyReading`. -/

structure BuoyReading where
  waveHeight : Dec
  swellDirection : Dec
  wavePeriod : Dec
deriving DecidableEq

/-- `buoyText.trim().split('\n')`. -/
def buoyLines (s : List Char) : List (List Char) :=
  splitOnChar '\n' (jsTrim s)

/-- `lines.find(line => line.includes('WVHT') && (line.includes('SwP') || line.includes('APD')))`. -/
def findHeaderLine (ls : List (List Char)) : Option (List Char) :=
  ls.find? (fun l =>
    containsSeg "WVHT".data l && (containsSeg "SwP".data l || containsSeg "APD".data l))

/-- The data-line filter: non-blank, not a comment, and free of the header
markers `YY`, `MM`, `WVHT` and the units-row text. -/
def isDataLine (l : List Char) : Bool :=
  !(jsTrim l).isEmpty && !startsWithHash l &&
    !containsSeg "YY".data l && !containsSeg "MM".data l &&
    !containsSeg "WVHT".data l && !containsSeg "yr  mo dy hr mn".data l

def findDataLine (ls : List (List Char)) : Option (List Char) :=
  ls.find? isDataLine

/-- `parseFloat(parts[5])` — WVHT, significant wave height in meters.
`none` models the `NaN` a missing or non-numeric column produces. -/
def rawWaveHeight (parts : List (List Char)) : Option Dec :=
  (parts.get? 5).bind jsParseFloat

/-- `parseFloat(parts[7])` — SwP, swell wave period in seconds. -/
def rawSwellPeriod (parts : List (List Char)) : Option Dec :=
  (parts.get? 7).bind jsParseFloat

/-- `parseFloat(parts[13])` — APD, average wave period in seconds. -/
def rawAPD (parts : List (List Char)) : Option Dec :=
  (parts.get? 13).bind jsParseFloat

/-- `parseFloat(parts[14])` — MWD, mean wave direction in degrees. -/
def rawDirection (parts : List (List Char)) : Option Dec :=
  (parts.get? 14).bind jsParseFloat

/-- The `wavePeriod` the code ends up validating: the swell period, replaced
by the average period when the swell period is `NaN` or outside [2,30] s. -/
def effectivePeriod (parts : List (List Char)) : Option Dec :=
  match rawSwellPeriod parts with
  | some p => if p < 2 ∨ 30 < p then rawAPD parts else some p
  | none => rawAPD parts

/-- The column-level tail of `parseBuoyData`, applied to the whitespace
split of the chosen data line. -/
def parseParts (parts : List (List Char)) : Option BuoyReading :=
  if parts.length < 8 then none
  else
    match rawWaveHeight parts, effectivePeriod parts, rawDirection parts with
    | some h, some p, some d =>
      if p < 2 ∨ 30 < p then none
      else if h < 0 ∨ 20 < h then none
      else some ⟨h * 3.28084, d, p⟩
    | _, _, _ => none

/-- Model of `parseBuoyData`. -/
def parseBuoyData (s : List Char) : Option BuoyReading :=
  let ls := buoyLines s
  if ls.length < 3 then none
  else
    match findHeaderLine ls with
    | none => none
    | some _ =>
      match findDataLine ls with
      | none => none
      | some dl => parseParts (splitWs (jsTrim dl))

/-! ## Tide snapshot builder (`fetchTideData`, src/index.ts lines 944-1067)

The two upstream HTTP requests are injected as already-resolved outcomes:
`thrown` covers a rejected fetch (network error / timeout) and a `.json()`
body that fails to parse — both land in the source's `catch` block;
`notOk` is an HTTP response with `ok === false`; `ok` carries the parsed
JSON payload.  Payloads are modelled post-`parseFloat`: the station's
`data`/`predictions` arrays with their numeric fields as exact decimals
(a real station response carries plain decimal strings).  Timestamps are
epoch milliseconds (`Int`), as compared by `getTime()`. -/

inductive FetchOutcome (α : Type) where
  | thrown : FetchOutcome α
  | notOk : FetchOutcome α
  | ok : α → FetchOutcome α
deriving DecidableEq

structure TidePrediction where
  t : Int
  type : Char
  v : Dec
deriving DecidableEq

structure TideEvent where
  time : Int
  height : Dec
deriving DecidableEq

structure TideData where
  currentHeight : Dec
  state : String
  nextHigh : Option TideEvent
  nextLow : Option TideEvent
deriving DecidableEq

/-- The snapshot returned from the source's `catch` block. -/
def fallbackTide : TideData := ⟨1.5, "Mid", none, none⟩

/-- The prediction loop: first future 'H' and first future 'L' event, with
the source's `else if` shape and its early `break` once both are found. -/
def scanPredictions (now : Int) :
    List TidePrediction → Option TideEvent → Option TideEvent →
    Option TideEvent × Option TideEvent
  | [], h, l => (h, l)
  | p :: rest, h, l =>
    if now < p.t then
      let hl :=
        if p.type == 'H' && h.isNone then (some ⟨p.t, p.v⟩, l)
        else if p.type == 'L' && l.isNone then (h, some ⟨p.t, p.v⟩)
        else (h, l)
      if hl.1.isSome && hl.2.isSome then hl
      else scanPredictions now rest hl.1 hl.2
    else scanPredictions now rest h l

/-- The state classification at the end of `fetchTideData`. -/
def tideState (now : Int) (currentHeight : Dec)
    (nextHigh nextLow : Option TideEvent) : String :=
  match nextHigh, nextLow with
  | some hi, some lo =>
    let timeToHigh := hi.time - now
    let timeToLow := lo.time - now
    let st :=
      if timeToHigh < timeToLow then
        (if 1.5 < currentHeight then "High Rising" else "Rising")
      else
        (if currentHeight < 1 then "Low Falling" else "Falling")
    let range := (hi.height - lo.height).abs
    let midPoint := (hi.height + lo.height).half
    if (currentHeight - midPoint).abs < range * 0.25 then "Mid" else st
  | _, _ => "Unknown"

/-- Model of `fetchTideData`.  `currentRes` carries the station's latest
`data` array (the `v` of each record), `predictionsRes` the hi/lo
`predictions` array; `none` inside `ok` models a payload missing the
field. -/
def fetchTideData (now : Int)
    (currentRes : FetchOutcome (Option (List Dec)))
    (predictionsRes : FetchOutcome (Option (List TidePrediction))) : TideData :=
  match currentRes, predictionsRes with
  | .thrown, _ => fallbackTide
  | _, .thrown => fallbackTide
  | cr, pr =>
    let currentHeight : Dec :=
      match cr with
      | .ok (some (v :: _)) => v
      | _ => 0
    let nhl :=
      match pr with
      | .ok (some preds) =>
        if preds.isEmpty then (none, none)
        else scanPredictions now preds none none
      | _ => (none, none)
    ⟨currentHeight, tideState now currentHeight nhl.1 nhl.2, nhl.1, nhl.2⟩

/-! ## Forecast summarizer (`getConditionsDuration`, src/index.ts 1069-1163)

`new Date()` and the two ambient random draws are injected (`now`, `rnd`).
Each hourly point's score is the deterministic `surfScore` of the derived
`SurfData` — by construction (`calculateSurfability`) the score does not
depend on the flavor draw. -/

structure HourlyForecast where
  time : Int
  wave_height : Dec
  wave_period : Dec
  swell_direction : Dec
  wind_speed : Dec
  wind_direction : Dec
deriving DecidableEq

/-- The `SurfData` built for one forecast hour: wave height to feet, wind
speed m/s to knots, shared tide label, no tide height. -/
def hourSurfData (tide : String) (h : HourlyForecast) : SurfData :=
  { waveHeight := h.wave_height * 3.28084
    wavePeriod := h.wave_period
    swellDirection := h.swell_direction
    windDirection := h.wind_direction
    windSpeed := h.wind_speed * 0.539957
    tide := tide
    tideHeight := none }

structure StreakAcc where
  goodStreaks : List Nat
  marginalStreaks : List Nat
  currentGood : Nat
  currentMarginal : Nat
  totalSurfable : Nat
deriving DecidableEq

/-- One iteration of the source's streak loop. -/
def streakStep (tide : String) (acc : StreakAcc) (h : HourlyForecast) : StreakAcc :=
  let score := surfScore (hourSurfData tide h)
  if 65 ≤ score then
    { goodStreaks := acc.goodStreaks
      marginalStreaks :=
        if 0 < acc.currentMarginal then acc.marginalStreaks ++ [acc.currentMarginal]
        else acc.marginalStreaks
      currentGood := acc.currentGood + 1
      currentMarginal := 0
      totalSurfable := acc.totalSurfable + 1 }
  else if 45 ≤ score then
    { goodStreaks :=
        if 0 < acc.currentGood then acc.goodStreaks ++ [acc.currentGood]
        else acc.goodStreaks
      marginalStreaks := acc.marginalStreaks
      currentGood := 0
      currentMarginal := acc.currentMarginal + 1
      totalSurfable := acc.totalSurfable + 1 }
  else
    { goodStreaks :=
        if 0 < acc.currentGood then acc.goodStreaks ++ [acc.currentGood]
        else acc.goodStreaks
      marginalStreaks :=
        if 0 < acc.currentMarginal then acc.marginalStreaks ++ [acc.currentMarginal]
        else acc.marginalStreaks
      currentGood := 0
      currentMarginal := 0
      totalSurfable := acc.totalSurfable }

/-- The fixed flat-conditions messages (the source escapes the apostrophe
of "you're"; here it is spelled via its character code). -/
def flatMessages : List String :=
  ["Flat spell continues...",
   "Time to practice your pop-ups on land",
   "Great day for a beach walk",
   "Maybe check the bay?",
   "Longboard day if you" ++ String.singleton (Char.ofNat 39) ++ "re desperate",
   "Netflix has some good surf movies",
   "Perfect time to wax your board"]

/-- Model of `getConditionsDuration`. -/
def getConditionsDuration (rnd : Nat → Nat) (now : Int)
    (hourlyForecasts : List HourlyForecast) (tide : String) : String :=
  if hourlyForecasts.isEmpty then "No forecast data available."
  else
    let futureForecasts := (hourlyForecasts.filter (fun f => decide (now ≤ f.time))).take 24
    let acc := futureForecasts.foldl (streakStep tide) ⟨[], [], 0, 0, 0⟩
    let goodStreaks :=
      if 0 < acc.currentGood then acc.goodStreaks ++ [acc.currentGood] else acc.goodStreaks
    let marginalStreaks :=
      if 0 < acc.currentMarginal then acc.marginalStreaks ++ [acc.currentMarginal]
      else acc.marginalStreaks
    let maxGoodStreak := goodStreaks.foldl max 0
    let maxMarginalStreak := marginalStreaks.foldl max 0
    if 8 ≤ maxGoodStreak then "Good surf for most of the day!"
    else if 6 ≤ maxGoodStreak then
      "Good surf for " ++ toString maxGoodStreak ++ " solid hours!"
    else if 3 ≤ maxGoodStreak then
      "Good surf for about " ++ toString maxGoodStreak ++ " hours"
    else if 1 ≤ maxGoodStreak then
      "Brief good surf window (~" ++ toString maxGoodStreak ++ "hr)"
    else if 8 ≤ maxMarginalStreak then "Marginal conditions for most of the day"
    else if 4 ≤ maxMarginalStreak then
      "Marginal conditions for " ++ toString maxMarginalStreak ++ " hours"
    else if 2 ≤ maxMarginalStreak then
      "Sketchy conditions for " ++ toString maxMarginalStreak ++ " hours"
    else if 1 ≤ acc.totalSurfable then "Brief surfable windows expected"
    else flatMessages.getD (rnd flatMessages.length) ""

/-! ## Scoring engine: helper lemmas -/

lemma calc_score_eq (rnd : Nat → Nat) (data : SurfData) :
    (calculateSurfability rnd data).score = surfScore data := by
  simp only [calculateSurfability]
  split_ifs <;> rfl

lemma calc_surfable_eq (rnd : Nat → Nat) (data : SurfData) :
    (calculateSurfability rnd data).surfable = decide (45 ≤ surfScore data) := by
  simp only [calculateSurfability]
  split_ifs <;> rfl

lemma calc_rating_eq (rnd : Nat → Nat) (data : SurfData) :
    (calculateSurfability rnd data).rating = canonicalRating (surfScore data) := by
  simp only [calculateSurfability, canonicalRating]
  split_ifs <;> first | rfl | omega

lemma heightScore_le (h : Dec) : heightScore h ≤ 25 := by
  unfold heightScore
  split_ifs <;> omega

lemma periodScore_le (p : Dec) : periodScore p ≤ 25 := by
  unfold periodScore
  split_ifs <;> omega

lemma directionScore_le (d : Dec) : directionScore d ≤ 20 := by
  unfold directionScore
  split_ifs <;> omega

lemma windScore_le (speed dir : Dec) : windScore speed dir ≤ 20 := by
  unfold windScore
  split_ifs <;> omega

lemma tideScore_le (tide : String) : tideScore tide ≤ 10 := by
  unfold tideScore
  split_ifs <;> omega

lemma tideHeightBonus_le (th : Option Dec) : tideHeightBonus th ≤ 5 := by
  cases th with
  | none => simp [tideHeightBonus]
  | some v =>
    simp only [tideHeightBonus]
    split_ifs <;> omega

lemma surfScore_le (data : SurfData) : surfScore data ≤ 105 := by
  unfold surfScore
  have h1 := heightScore_le data.waveHeight
  have h2 := periodScore_le data.wavePeriod
  have h3 := directionScore_le data.swellDirection
  have h4 := windScore_le data.windSpeed data.windDirection
  have h5 := tideScore_le data.tide
  have h6 := tideHeightBonus_le data.tideHeight
  omega

/-! ## Scoring engine: claims C1-C4 -/

/-- Claim C1: for every `SurfData` input the score of `calculateSurfability`
is an integer in [0, 115], in every scoring variant: the embedding carries
the optional tide-height bonus of the fuller variant, and the variant
without it is the `tideHeight = none` case.  The score has type `Nat`, so
it is an integer by construction (the actual maximum, 105, is within the
claimed range). -/
theorem claim_C1 (rnd : Nat → Nat) (data : SurfData) :
    0 ≤ (calculateSurfability rnd data).score ∧
      (calculateSurfability rnd data).score ≤ 115 := by
  rw [calc_score_eq]
  exact ⟨Nat.zero_le _, le_trans (surfScore_le data) (by omega)⟩

/-- Claim C2: for waveHeight=5, wavePeriod=11, swellDirection=90,
windSpeed=3, windDirection=0, tide=Mid, `calculateSurfability` returns
score 95 (= 25+25+20+15+10), rating "Excellent", surfable = true,
whatever the random flavor draw. -/
theorem claim_C2 (rnd : Nat → Nat) :
    (calculateSurfability rnd ⟨5, 11, 90, 0, 3, "Mid", none⟩).score = 25 + 25 + 20 + 15 + 10 ∧
      (calculateSurfability rnd ⟨5, 11, 90, 0, 3, "Mid", none⟩).rating = "Excellent" ∧
      (calculateSurfability rnd ⟨5, 11, 90, 0, 3, "Mid", none⟩).surfable = true := by
  have hs : surfScore ⟨5, 11, 90, 0, 3, "Mid", none⟩ = 95 := by decide
  refine ⟨?_, ?_, ?_⟩
  · rw [calc_score_eq, hs]
  · rw [calc_rating_eq, hs]
    rfl
  · rw [calc_surfable_eq, hs]
    rfl

/-- Claim C3: for every input, the rating tier follows the canonical 4-tier
cutoffs (Poor <45, Marginal 45-64, Good 65-79, Excellent ≥80 — here the
function `canonicalRating` written from the spec's words) and `surfable`
holds exactly when the score is at least 45. -/
theorem claim_C3 (rnd : Nat → Nat) (data : SurfData) :
    (calculateSurfability rnd data).rating =
        canonicalRating (calculateSurfability rnd data).score ∧
      (calculateSurfability rnd data).surfable =
        decide (45 ≤ (calculateSurfability rnd data).score) := by
  rw [calc_score_eq]
  exact ⟨calc_rating_eq rnd data, calc_surfable_eq rnd data⟩

/-- Claim C4: the random flavor draw never influences the numeric result:
two runs of `calculateSurfability` with different injected random choices
agree on score, surfable and rating (they may differ only in the
`funRating` label). -/
theorem claim_C4 (rnd₁ rnd₂ : Nat → Nat) (data : SurfData) :
    (calculateSurfability rnd₁ data).score = (calculateSurfability rnd₂ data).score ∧
      (calculateSurfability rnd₁ data).surfable = (calculateSurfability rnd₂ data).surfable ∧
      (calculateSurfability rnd₁ data).rating = (calculateSurfability rnd₂ data).rating := by
  refine ⟨?_, ?_, ?_⟩
  · rw [calc_score_eq, calc_score_eq]
  · rw [calc_surfable_eq, calc_surfable_eq]
  · rw [calc_rating_eq, calc_rating_eq]

/-! ## Buoy parser: helper lemmas -/

/-- Once a data line has been located, the parse result is decided by
`parseParts` on its whitespace split (every earlier gate also returns
`none`). -/
lemma parse_gate (s dl : List Char) (hdl : findDataLine (buoyLines s) = some dl)
    (hpp : parseParts (splitWs (jsTrim dl)) = none) : parseBuoyData s = none := by
  simp only [parseBuoyData]
  by_cases h3 : (buoyLines s).length < 3
  · simp [h3]
  · simp only [if_neg h3]
    cases hh : findHeaderLine (buoyLines s) with
    | none => rfl
    | some x =>
      rw [hdl]
      exact hpp

lemma parseParts_none_of_lt8 (parts : List (List Char))
    (hlen : parts.length < 8) : parseParts parts = none := by
  unfold parseParts
  simp [hlen]

/-- With fewer than 15 columns the direction column (index 14) is missing,
its `parseFloat` is `NaN`, and the reading is rejected. -/
lemma parseParts_none_of_lt15 (parts : List (List Char))
    (hlen : parts.length < 15) : parseParts parts = none := by
  unfold parseParts
  by_cases h8 : parts.length < 8
  · simp [h8]
  · have hdir : rawDirection parts = none := by
      unfold rawDirection
      rw [List.get?_eq_none.mpr (by omega)]
      rfl
    simp only [if_neg h8]
    cases hw : rawWaveHeight parts <;> cases hp : effectivePeriod parts <;>
      simp [hdir]

/-! ## Buoy parser: claims C5, C7, C8, C10 -/

/-- A 13-column feed line, as in the shorter upstream format revision the
spec describes (direction in the final column). -/
def c5Input : List Char :=
  ("#YY  MM DD hh mm WVHT  SwH  SwP  WWH  WWP SwD WWD  MWD\n" ++
   "#yr  mo dy hr mn    m    m  sec    m  sec  -  degT degT\n" ++
   "2025 06 13 20 26  0.8  0.2 10.5  0.7  8.3 110 115  98").data

def c5DataLine : List Char :=
  "2025 06 13 20 26  0.8  0.2 10.5  0.7  8.3 110 115  98".data

/-- Counterexample to claim C5: a well-formed NDBC feed in a 13-column
layout — valid header (`WVHT`/`SwP` present), a numeric data line with
wave height 0.8 m ∈ [0,20], swell period 10.5 s ∈ [2,30] and final-column
direction 98° ∈ [0,360] — is rejected by `parseBuoyData`, because the code
reads the direction from the fixed index 14 (and the period fallback from
index 13) instead of indexing from the end or by header lookup. -/
theorem claim_C5_counterexample :
    (buoyLines c5Input).length = 3 ∧
      findHeaderLine (buoyLines c5Input) ≠ none ∧
      findDataLine (buoyLines c5Input) = some c5DataLine ∧
      (splitWs (jsTrim c5DataLine)).length = 13 ∧
      jsParseFloat ((splitWs (jsTrim c5DataLine)).getD 5 []) = some (0.8 : Dec) ∧
      (0 : Dec) ≤ (0.8 : Dec) ∧ (0.8 : Dec) ≤ 20 ∧
      jsParseFloat ((splitWs (jsTrim c5DataLine)).getD 7 []) = some (10.5 : Dec) ∧
      (2 : Dec) ≤ (10.5 : Dec) ∧ (10.5 : Dec) ≤ 30 ∧
      jsParseFloat ((splitWs (jsTrim c5DataLine)).getD 12 []) = some (98 : Dec) ∧
      (0 : Dec) ≤ (98 : Dec) ∧ (98 : Dec) ≤ 360 ∧
      parseBuoyData c5Input = none := by
  decide

/-- A 15-column feed line in the layout the code's fixed indices expect. -/
def ex15Input : List Char :=
  ("#YY  MM DD hh mm WVHT  SwH  SwP  WWH  WWP SwD WWD  STEEPNESS  APD MWD\n" ++
   "#yr  mo dy hr mn    m    m  sec    m  sec  -  degT     -      sec degT\n" ++
   "2025 06 13 20 26  0.8  0.2 10.5  0.7  8.3   E   E        N/A  4.1  98").data

/-- Claim C5, amended: the parser tolerates only the 15-column layout.  Any
feed whose data line splits into fewer than 15 columns is rejected
(`none`), and a well-formed 15-column line parses to a reading (height
converted to feet by 3.28084). -/
theorem claim_C5_amended :
    (∀ s dl : List Char, findDataLine (buoyLines s) = some dl →
      (splitWs (jsTrim dl)).length < 15 → parseBuoyData s = none) ∧
      parseBuoyData ex15Input = some ⟨(0.8 : Dec) * 3.28084, 98, 10.5⟩ := by
  constructor
  · intro s dl hdl hlen
    exact parse_gate s dl hdl (parseParts_none_of_lt15 _ hlen)
  · decide

/-- A 14-column feed (one column short of what the fixed indices need). -/
def c5wInput : List Char :=
  ("#YY  MM DD hh mm WVHT  SwH  SwP  WWH  WWP SwD WWD  STEEPNESS  APD\n" ++
   "#yr  mo dy hr mn    m    m  sec    m  sec  -  degT     -      sec\n" ++
   "2025 06 13 20 26  0.8  0.2 10.5  0.7  8.3 110 115  0.02  4.1").data

def c5wDataLine : List Char :=
  "2025 06 13 20 26  0.8  0.2 10.5  0.7  8.3 110 115  0.02  4.1".data

/-- Witness for the amended claim C5 at a concrete 14-column feed. -/
theorem claim_C5_amended_witness : parseBuoyData c5wInput = none :=
  claim_C5_amended.1 c5wInput c5wDataLine (by decide) (by decide)

/-- Claim C7: whenever the extracted wave period (swell period with the
average-period fallback) is still `NaN` or outside [2,30] s, or the wave
height is `NaN` or outside [0,20] m, or the direction column is absent or
non-numeric, `parseBuoyData` returns the no-data result. -/
theorem claim_C7 (s dl : List Char) (hdl : findDataLine (buoyLines s) = some dl)
    (hbad :
      rawWaveHeight (splitWs (jsTrim dl)) = none ∨
      effectivePeriod (splitWs (jsTrim dl)) = none ∨
      rawDirection (splitWs (jsTrim dl)) = none ∨
      (∃ p, effectivePeriod (splitWs (jsTrim dl)) = some p ∧ (p < 2 ∨ 30 < p)) ∨
      (∃ h, rawWaveHeight (splitWs (jsTrim dl)) = some h ∧ (h < 0 ∨ 20 < h))) :
    parseBuoyData s = none := by
  refine parse_gate s dl hdl ?_
  unfold parseParts
  by_cases h8 : (splitWs (jsTrim dl)).length < 8
  · simp [h8]
  · simp only [if_neg h8]
    cases hw : rawWaveHeight (splitWs (jsTrim dl)) with
    | none => cases hp : effectivePeriod (splitWs (jsTrim dl)) <;>
        cases hd : rawDirection (splitWs (jsTrim dl)) <;> rfl
    | some h =>
      cases hp : effectivePeriod (splitWs (jsTrim dl)) with
      | none => cases hd : rawDirection (splitWs (jsTrim dl)) <;> rfl
      | some p =>
        cases hd : rawDirection (splitWs (jsTrim dl)) with
        | none => rfl
        | some d =>
          rcases hbad with h1 | h2 | h3 | ⟨q, hq, hout⟩ | ⟨w, hw2, hout⟩
          · rw [hw] at h1
            exact Option.noConfusion h1
          · rw [hp] at h2
            exact Option.noConfusion h2
          · rw [hd] at h3
            exact Option.noConfusion h3
          · rw [hp] at hq
            cases Option.some.inj hq
            simp [hout]
          · rw [hw] at hw2
            cases Option.some.inj hw2
            by_cases hpc : p < 2 ∨ 30 < p
            · simp [hpc]
            · simp [hpc, hout]

/-- A 15-column feed whose swell period (50 s) and average period (55 s)
are both outside the plausible range [2,30] s. -/
def c7Input : List Char :=
  ("#YY  MM DD hh mm WVHT  SwH  SwP  WWH  WWP SwD WWD  STEEPNESS  APD MWD\n" ++
   "#yr  mo dy hr mn    m    m  sec    m  sec  -  degT     -      sec degT\n" ++
   "2025 06 13 20 26  0.8  0.2 50.0  0.7  8.3   E   E        N/A 55.0  98").data

def c7DataLine : List Char :=
  "2025 06 13 20 26  0.8  0.2 50.0  0.7  8.3   E   E        N/A 55.0  98".data

/-- Witness for claim C7 at a concrete feed whose period stays out of
range even after the average-period fallback. -/
theorem claim_C7_witness : parseBuoyData c7Input = none :=
  claim_C7 c7Input c7DataLine (by decide)
    (Or.inr (Or.inr (Or.inr (Or.inl ⟨⟨550, 1⟩, by decide, by decide⟩))))

/-- Claim C8: a feed whose located data line splits into fewer than 8
whitespace-delimited fields yields the unavailable result.  ("Never
throws" holds by construction: the embedding of `parseBuoyData`, like the
source's `try/catch` body, is a total function into `Option`.) -/
theorem claim_C8 (s dl : List Char) (hdl : findDataLine (buoyLines s) = some dl)
    (hlen : (splitWs (jsTrim dl)).length < 8) : parseBuoyData s = none :=
  parse_gate s dl hdl (parseParts_none_of_lt8 _ hlen)

/-- A feed whose data line has only 3 fields. -/
def c8Input : List Char :=
  ("#YY  MM DD hh mm WVHT  SwH  SwP  WWH  WWP SwD WWD  STEEPNESS  APD MWD\n" ++
   "#yr  mo dy hr mn    m    m  sec    m  sec  -  degT     -      sec degT\n" ++
   "2025 06 13").data

def c8DataLine : List Char := "2025 06 13".data

/-- Witness for claim C8 at a concrete 3-field feed. -/
theorem claim_C8_witness : parseBuoyData c8Input = none :=
  claim_C8 c8Input c8DataLine (by decide) (by decide)

/-- Claim C10: a data line that passes the 8-column minimum but has fewer
than 15 columns is still rejected (the direction read at fixed index 14 is
`NaN`), so a successful reading requires at least 15 columns. -/
theorem claim_C10 :
    (∀ s dl : List Char, findDataLine (buoyLines s) = some dl →
      8 ≤ (splitWs (jsTrim dl)).length → (splitWs (jsTrim dl)).length < 15 →
      parseBuoyData s = none) ∧
      (∀ (s : List Char) (r : BuoyReading), parseBuoyData s = some r →
        ∀ dl : List Char, findDataLine (buoyLines s) = some dl →
          15 ≤ (splitWs (jsTrim dl)).length) := by
  constructor
  · intro s dl hdl _ hlt
    exact parse_gate s dl hdl (parseParts_none_of_lt15 _ hlt)
  · intro s r hr dl hdl
    by_contra hlt
    rw [parse_gate s dl hdl (parseParts_none_of_lt15 _ (by omega))] at hr
    exact Option.noConfusion hr

/-- A feed whose data line has 9 fields: more than 8, fewer than 15. -/
def c10Input : List Char :=
  ("#YY  MM DD hh mm WVHT  SwH  SwP  WWH  WWP SwD WWD  STEEPNESS  APD MWD\n" ++
   "#yr  mo dy hr mn    m    m  sec    m  sec  -  degT     -      sec degT\n" ++
   "2025 06 13 20 26  0.8  0.2 10.5  98").data

def c10DataLine : List Char := "2025 06 13 20 26  0.8  0.2 10.5  98".data

/-- Witness for claim C10 at a concrete 9-column feed. -/
theorem claim_C10_witness : parseBuoyData c10Input = none :=
  claim_C10.1 c10Input c10DataLine (by decide) (by decide) (by decide)

/-! ## Tide snapshot: claim C6 -/

/-- Counterexample to claim C6: a non-2xx response from both tide
endpoints does not produce the fixed default snapshot (height 1.5 ft,
state "Mid").  The non-ok branches are handled outside the `catch` block:
the current height stays at its initialisation `0` and the state stays
"Unknown". -/
theorem claim_C6_counterexample :
    fetchTideData 0 .notOk .notOk = ⟨0, "Unknown", none, none⟩ ∧
      fetchTideData 0 .notOk .notOk ≠ fallbackTide := by
  decide

/-- Claim C6, amended: a thrown failure (network error, timeout, or a
`.json()` body that fails to parse) from either endpoint yields the fixed
default snapshot (1.5 ft, "Mid", no events); a non-2xx response is
tolerated without propagating any failure but yields height 0, state
"Unknown" and no events instead of the default.  No failure reaches the
caller in either case: `fetchTideData` is total. -/
theorem claim_C6_amended :
    (∀ (now : Int) (cr : FetchOutcome (Option (List Dec)))
      (pr : FetchOutcome (Option (List TidePrediction))),
      cr = .thrown ∨ pr = .thrown → fetchTideData now cr pr = fallbackTide) ∧
      (∀ now : Int, fetchTideData now .notOk .notOk = ⟨0, "Unknown", none, none⟩) := by
  constructor
  · rintro now cr pr (rfl | rfl)
    · cases pr <;> rfl
    · cases cr <;> rfl
  · intro now
    rfl

/-- Witness for the amended claim C6: a thrown current-level request with
an available predictions response still collapses to the default
snapshot. -/
theorem claim_C6_amended_witness :
    fetchTideData 0 .thrown (.ok (some [⟨3600000, 'H', ⟨45, 1⟩⟩])) = fallbackTide :=
  claim_C6_amended.1 0 .thrown (.ok (some [⟨3600000, 'H', ⟨45, 1⟩⟩])) (Or.inl rfl)

/-! ## Forecast summarizer: claim C9 helper lemmas -/

lemma streakStep_good (tide : String) (p : HourlyForecast) (gs ms : List Nat)
    (cg t : Nat) (hp : 65 ≤ surfScore (hourSurfData tide p)) :
    streakStep tide ⟨gs, ms, cg, 0, t⟩ p = ⟨gs, ms, cg + 1, 0, t + 1⟩ := by
  simp only [streakStep]
  rw [if_pos hp]
  simp

lemma streakStep_poor (tide : String) (p : HourlyForecast)
    (hp : surfScore (hourSurfData tide p) < 45) :
    streakStep tide ⟨[], [], 0, 0, 0⟩ p = ⟨[], [], 0, 0, 0⟩ := by
  simp only [streakStep]
  rw [if_neg (by omega), if_neg (by omega)]
  simp

lemma foldl_streak_good (tide : String) :
    ∀ (l : List HourlyForecast) (gs ms : List Nat) (cg t : Nat),
      (∀ p ∈ l, 65 ≤ surfScore (hourSurfData tide p)) →
      l.foldl (streakStep tide) ⟨gs, ms, cg, 0, t⟩ =
        ⟨gs, ms, cg + l.length, 0, t + l.length⟩
  | [], gs, ms, cg, t, _ => by simp
  | p :: rest, gs, ms, cg, t, hall => by
    have hp : 65 ≤ surfScore (hourSurfData tide p) := hall p (by simp)
    have hrest : ∀ q ∈ rest, 65 ≤ surfScore (hourSurfData tide q) :=
      fun q hq => hall q (by simp [hq])
    rw [List.foldl_cons, streakStep_good tide p gs ms cg t hp,
      foldl_streak_good tide rest gs ms (cg + 1) (t + 1) hrest]
    simp only [List.length_cons, StreakAcc.mk.injEq]
    refine ⟨trivial, trivial, by omega, trivial, by omega⟩

lemma foldl_streak_poor (tide : String) :
    ∀ l : List HourlyForecast,
      (∀ p ∈ l, surfScore (hourSurfData tide p) < 45) →
      l.foldl (streakStep tide) ⟨[], [], 0, 0, 0⟩ = ⟨[], [], 0, 0, 0⟩
  | [], _ => by simp
  | p :: rest, hall => by
    have hp : surfScore (hourSurfData tide p) < 45 := hall p (by simp)
    have hrest : ∀ q ∈ rest, surfScore (hourSurfData tide q) < 45 :=
      fun q hq => hall q (by simp [hq])
    rw [List.foldl_cons, streakStep_poor tide p hp, foldl_streak_poor tide rest hrest]

/-! ## Forecast summarizer: claim C9 -/

/-- Claim C9: on 24 future hourly points that all score at least 65, the
summarizer reports the "most of the day" message; on 24 future points that
all score below 45, it reports one of the fixed flat messages (under the
standing fact that the injected random index is within the list, as
`Math.floor(Math.random() * n) < n` always is). -/
theorem claim_C9 (rnd : Nat → Nat) (now : Int) (pts : List HourlyForecast)
    (tide : String) (h24 : pts.length = 24)
    (hfut : ∀ p ∈ pts, now ≤ p.time)
    (hr : rnd flatMessages.length < flatMessages.length) :
    ((∀ p ∈ pts, 65 ≤ (calculateSurfability rnd (hourSurfData tide p)).score) →
      getConditionsDuration rnd now pts tide = "Good surf for most of the day!") ∧
      ((∀ p ∈ pts, (calculateSurfability rnd (hourSurfData tide p)).score < 45) →
        getConditionsDuration rnd now pts tide ∈ flatMessages) := by
  have hne : pts.isEmpty = false := by
    cases pts with
    | nil => simp at h24
    | cons a l => rfl
  have hfilter : pts.filter (fun f => decide (now ≤ f.time)) = pts := by
    rw [List.filter_eq_self]
    intro a ha
    simpa using hfut a ha
  have htake : pts.take 24 = pts := by
    rw [← h24]
    exact List.take_length pts
  constructor
  · intro hgood
    simp only [getConditionsDuration, hne, Bool.false_eq_true, if_false, hfilter, htake]
    rw [foldl_streak_good tide pts [] [] 0 0
      (fun p hp => by simpa [calc_score_eq] using hgood p hp)]
    simp [h24]
  · intro hpoor
    simp only [getConditionsDuration, hne, Bool.false_eq_true, if_false, hfilter, htake]
    rw [foldl_streak_poor tide pts
      (fun p hp => by simpa [calc_score_eq] using hpoor p hp)]
    simp only [List.foldl_nil]
    show flatMessages.getD (rnd flatMessages.length) "" ∈ flatMessages
    rw [List.getD_eq_getElem _ _ hr]
    exact List.getElem_mem hr

/-- A forecast hour scoring 95 (1 m waves, 11 s period, 90° swell, calm
wind, tide "Mid") and one scoring 15 (flat, tide "Low"). -/
def goodHour : HourlyForecast := ⟨0, 1, 11, 90, 0, 0⟩

def flatHour : HourlyForecast := ⟨0, 0, 0, 0, 0, 0⟩

/-- Witness for claim C9 on two concrete 24-hour forecasts. -/
theorem claim_C9_witness :
    getConditionsDuration (fun _ => 0) 0 (List.replicate 24 goodHour) "Mid" =
        "Good surf for most of the day!" ∧
      getConditionsDuration (fun _ => 0) 0 (List.replicate 24 flatHour) "Low" ∈
        flatMessages :=
  ⟨(claim_C9 (fun _ => 0) 0 (List.replicate 24 goodHour) "Mid" (by decide)
      (by decide) (by decide)).1 (by decide),
    (claim_C9 (fun _ => 0) 0 (List.replicate 24 flatHour) "Low" (by decide)
      (by decide) (by decide)).2 (by decide)⟩

end Surf
